import Mathlib

/-!
Verification of `news_collection.py`, a single-file RSS news aggregation
pipeline: fetch feeds, filter entries by recency, deduplicate against a
persisted seen-link set, best-effort title translation, best-effort article
scraping, and per-feed persistence of the seen-link set.

The embedding is shallow and explicit-state.  External capabilities
(date parsing via `dateutil`, language detection via `langdetect`, the remote
translation POST, article scraping via `newspaper`) are parameters of the
embedded functions; a Python exception raised by a capability is modelled as
`Except.error`, and the embedded control flow mirrors exactly which call
sites sit inside a `try`/`except` block in the source.  The module-level
mutable state (`seen_links`, the counters) is passed explicitly.
-/

namespace NewsCollection

/-- Result of `dateutil.parser.parse` on a published string:
either a timezone-aware instant (comparable with the timezone-aware
`TIME_THRESHOLD`, modelled as an integer timestamp), a timezone-naive
datetime (whose comparison with the aware threshold raises `TypeError`
inside the `try` block of `is_recent`), or a parse exception. -/
inductive ParseResult where
  | aware (t : Int)
  | naive
  | fail
deriving Repr, DecidableEq

/-- Embedding of `is_recent` (news_collection.py lines 89-98).

```python
def is_recent(entry):
    pub_date_str = entry.get("published")
    if not pub_date_str:
        return False
    try:
        pub_date = date_parser.parse(pub_date_str)
        return pub_date > TIME_THRESHOLD
    except Exception as e:
        logging.info(f"Date parse failed: {e}")
        return False
```

`entry.get("published")` is the `published : Option String` argument;
`not pub_date_str` is true for both `None` and `""`.  Both the parse call
and the comparison are inside the `try`, so a parse exception and the
naive/aware comparison `TypeError` both yield `False`. -/
def is_recent (parse : String → ParseResult) (threshold : Int)
    (published : Option String) : Bool :=
  match published with
  | none => false
  | some s =>
    if s.isEmpty then false
    else
      match parse s with
      | ParseResult.aware t => decide (threshold < t)
      | ParseResult.naive => false
      | ParseResult.fail => false

/-- Return value and remote-call count of one `translate_title` invocation.
`result` is `Except.error` when the Python call raises to its caller;
`remoteCalls` counts POST requests issued to the translation API. -/
structure TransResult where
  result : Except Unit String
  remoteCalls : Nat
deriving Repr

/-- Embedding of `translate_title` (news_collection.py lines 40-63).

```python
def translate_title(text, target_lang="en"):
    lang = detect(text)
    if lang in ["en", "zh"]:
        return text
    url = "https://libretranslate.de/translate"
    payload = {"q": text, "source": "auto", "target": target_lang, "format": "text"}
    try:
        response = requests.post(url, data=payload, timeout=10)
        translated = response.json().get("translatedText")
        return translated if translated else text
    except Exception as e:
        logging.warning(f"Translation failed: {e}")
        return text
```

`detect` is the langdetect capability (it raises `LangDetectException` on
e.g. featureless text, modelled as `Except.error`); the `detect` call sits
OUTSIDE the `try` block, so its exception propagates.  `post` bundles
`requests.post` + `response.json().get("translatedText")`: an exception
anywhere in it is caught and falls back to `text`; `.get` returning `None`
is `Except.ok none`, and a falsy (empty) translated string also falls back
to `text`. -/
def translate_title (detect : String → Except Unit String)
    (post : String → String → Except Unit (Option String))
    (text : String) (target_lang : String) : TransResult :=
  match detect text with
  | Except.error u => ⟨Except.error u, 0⟩
  | Except.ok lang =>
    if lang = "en" ∨ lang = "zh" then ⟨Except.ok text, 0⟩
    else
      match post text target_lang with
      | Except.error _ => ⟨Except.ok text, 1⟩
      | Except.ok none => ⟨Except.ok text, 1⟩
      | Except.ok (some translated) =>
        ⟨Except.ok (if translated.isEmpty then text else translated), 1⟩

/-- One raw feed entry as consumed by the pipeline: `entry.get("link")`,
`entry.get("title", "No title")` and `entry.get("published")` are the only
attributes read, each possibly absent. -/
structure Entry where
  link : Option String
  title : Option String
  published : Option String
deriving Repr, DecidableEq

/-- The story record built for one accepted entry (lines 121-126):
translated title, raw published string, source label, link. -/
structure Story where
  title : String
  published : Option String
  source : String
  link : Option String
deriving Repr, DecidableEq

/-- The mutable state threaded through `fetch_and_process`:
the in-memory `seen_links` set (a set of `entry.get("link")` values, so
`None` is a possible member), the per-feed counter `count`, the run-wide
counter `count_sum`, and the observable output streams: emitted story
records, printed excerpts, and scrape-error log lines (identified by the
failing link). -/
structure ProcState where
  seen : List (Option String)
  count : Nat
  count_sum : Nat
  stories : List Story
  excerpts : List String
  scrape_errors : List (Option String)
deriving Repr, DecidableEq

/-- Embedding of the per-entry body of the loop in `fetch_and_process`
(news_collection.py lines 111-141).

```python
for entry in feed.entries:
    if not is_recent(entry):
        continue
    link = entry.get("link")
    if link in seen_links:
        continue
    title = entry.get("title", "No title")
    date = entry.get("published")
    title_en = translate_title(title, "en")
    story = {"title": title_en, "published": date, "source": metadata, "link": link}
    print(...)
    seen_links.add(link)
    count += 1
    count_sum += 1
    try:
        article = Article(link)
        article.download()
        article.parse()
        print(f"{article.text[:150]}")
    except Exception as e:
        logging.error(f"Failed to scrape: {link} ({e})")
```

`tr` is the `translate_title(title, "en")` call: it can raise (detect
failure propagates, see `translate_title`), and nothing here catches that,
so the error aborts the whole run (`Except.error`).  `scrape` is the
`Article` download+parse capability; its `try`/`except` catches every
failure, logging the link.  `List.insert` models `set.add` (no-op when the
element is present; here the guard guarantees it is not). -/
def processEntry (parse : String → ParseResult) (threshold : Int)
    (tr : String → Except Unit String)
    (scrape : Option String → Except Unit String)
    (label : String) (st : ProcState) (e : Entry) : Except Unit ProcState :=
  if is_recent parse threshold e.published then
    if e.link ∈ st.seen then Except.ok st
    else
      match tr (e.title.getD "No title") with
      | Except.error u => Except.error u
      | Except.ok title_en =>
        let story : Story :=
          { title := title_en, published := e.published,
            source := label, link := e.link }
        let st1 : ProcState :=
          { st with stories := st.stories ++ [story],
                    seen := st.seen.insert e.link,
                    count := st.count + 1,
                    count_sum := st.count_sum + 1 }
        match scrape e.link with
        | Except.ok text =>
          Except.ok { st1 with excerpts := st1.excerpts ++ [text.take 150] }
        | Except.error _ =>
          Except.ok { st1 with scrape_errors := st1.scrape_errors ++ [e.link] }
  else Except.ok st

/-- The entry loop of `fetch_and_process` for one feed: entries are
processed sequentially in feed-yielded order, threading the state; an
uncaught exception from `processEntry` (i.e. from translation) aborts. -/
def processEntries (parse : String → ParseResult) (threshold : Int)
    (tr : String → Except Unit String)
    (scrape : Option String → Except Unit String)
    (label : String) : ProcState → List Entry → Except Unit ProcState
  | st, [] => Except.ok st
  | st, e :: es =>
    match processEntry parse threshold tr scrape label st e with
    | Except.error u => Except.error u
    | Except.ok st1 => processEntries parse threshold tr scrape label st1 es

/-- Embedding of `save_seen` writing the state file (lines 84-86):
`json.dump(list(seen_links), f)` after `open(SEEN_FILE, "w")` replaces any
prior file content with the serialized snapshot (`"w"` truncates).  The
file is `Option`-valued (`none` = file does not exist); the snapshot is the
set serialized in some iteration order. -/
def write_seen (_prior : Option (List (Option String)))
    (snapshot : List (Option String)) : Option (List (Option String)) :=
  some snapshot

/-- Embedding of the startup load (lines 78-82): if the file exists,
`seen_links = set(json.load(f))` (duplicates in the serialized list
collapse, order is discarded); otherwise the empty set. -/
def load_seen (file : Option (List (Option String))) : List (Option String) :=
  match file with
  | some l => l.dedup
  | none => []

/-- Number of emitted stories whose link is the `None` placeholder. -/
def linklessCount (stories : List Story) : Nat :=
  (stories.filter (fun s => s.link.isNone)).length

end NewsCollection

open NewsCollection

/-- C3: for every entry whose published field parses to an absolute
(timezone-aware) instant, `is_recent` returns true iff that instant is
strictly later than the threshold; strictly before or exactly equal yields
false. -/
theorem C3_is_recent_strict_threshold (parse : String → ParseResult)
    (threshold : Int) (s : String) (t : Int)
    (hne : s.isEmpty = false) (hp : parse s = ParseResult.aware t) :
    is_recent parse threshold (some s) = true ↔ threshold < t := by
  simp [is_recent, hne, hp]

/-- Witness for C3 at a concrete input: a string parsing to instant 5
against threshold 3 is recent, and against threshold 5 it is not
(equal-to-threshold excluded). -/
theorem C3_is_recent_strict_threshold_witness :
    (is_recent (fun _ => ParseResult.aware 5) 3 (some "Fri, 02 May 2025") = true ↔
      (3 : Int) < 5) ∧
    (is_recent (fun _ => ParseResult.aware 5) 5 (some "Fri, 02 May 2025") = true ↔
      (5 : Int) < 5) := by
  refine ⟨?_, ?_⟩
  · exact C3_is_recent_strict_threshold (fun _ => ParseResult.aware 5) 3
      "Fri, 02 May 2025" 5 (by decide) rfl
  · exact C3_is_recent_strict_threshold (fun _ => ParseResult.aware 5) 5
      "Fri, 02 May 2025" 5 (by decide) rfl

/-- C8: an entry whose `published` field is absent (`None`) or the empty
string is never considered recent: `is_recent` returns false. -/
theorem C8_is_recent_absent_or_empty (parse : String → ParseResult)
    (threshold : Int) :
    is_recent parse threshold none = false ∧
    is_recent parse threshold (some "") = false := by
  constructor
  · rfl
  · rfl

/-- C9: `is_recent` is total: a published string that parses to a
timezone-naive instant (the aware/naive comparison raises inside the
guarded block) or fails to parse at all yields false rather than a
propagated exception. -/
theorem C9_is_recent_total_on_failures (parse : String → ParseResult)
    (threshold : Int) (s : String)
    (h : parse s = ParseResult.naive ∨ parse s = ParseResult.fail) :
    is_recent parse threshold (some s) = false := by
  rcases h with h | h <;> simp [is_recent, h]

/-- Witness for C9 at concrete inputs: a naive-parsing string and an
unparseable string both yield false. -/
theorem C9_is_recent_total_on_failures_witness :
    is_recent (fun _ => ParseResult.naive) 0 (some "2025-05-02 10:00:00") = false ∧
    is_recent (fun _ => ParseResult.fail) 0 (some "not a date") = false := by
  constructor
  · exact C9_is_recent_total_on_failures (fun _ => ParseResult.naive) 0
      "2025-05-02 10:00:00" (Or.inl rfl)
  · exact C9_is_recent_total_on_failures (fun _ => ParseResult.fail) 0
      "not a date" (Or.inr rfl)

/-- C1 (code bug): `translate_title` does NOT degrade every failure to the
original text.  The `detect(text)` call sits outside the `try` block, so a
language-detection failure (e.g. `langdetect` raising on featureless text
such as `"!!!"`) propagates to the caller instead of returning the text.
This theorem evaluates the code at such a failing input: with a detection
capability that raises on `"!!!"` the call raises (`Except.error`) rather
than returning a string. -/
theorem C1_detect_failure_propagates :
    translate_title
      (fun s => if s = "!!!" then Except.error () else Except.ok "en")
      (fun _ _ => Except.ok none) "!!!" "en" = ⟨Except.error (), 0⟩ := by
  rfl

/-- C7 counterexample: the claim fails for a target language other than
`"en"`/`"zh"`.  With detection yielding `"fr"` — exactly the target
language passed — the code still issues a remote call (it checks the
hardcoded set `["en", "zh"]`, not the `target_lang` parameter) and returns
the translated text, not the original. -/
theorem C7_counterexample :
    (translate_title (fun _ => Except.ok "fr")
        (fun _ _ => Except.ok (some "Hello")) "bonjour" "fr").remoteCalls = 1 ∧
    (translate_title (fun _ => Except.ok "fr")
        (fun _ _ => Except.ok (some "Hello")) "bonjour" "fr").result ≠
      Except.ok "bonjour" := by
  constructor
  · rfl
  · intro h
    have h2 : (translate_title (fun _ => Except.ok "fr")
        (fun _ _ => Except.ok (some "Hello")) "bonjour" "fr").result =
        Except.ok "Hello" := rfl
    rw [h2] at h
    exact absurd (Except.ok.inj h) (by decide)

/-- C7 amended: for every text whose detected language is `"en"` (the
configured target `TARGET_LANG`) or `"zh"` (the bypass language),
`translate_title` returns the text unchanged and makes no remote call —
the skip set is the fixed pair `{"en", "zh"}`, independent of the
`target_lang` argument. -/
theorem C7_amended_skip_en_zh (detect : String → Except Unit String)
    (post : String → String → Except Unit (Option String))
    (text : String) (target_lang : String) (lang : String)
    (hd : detect text = Except.ok lang) (hl : lang = "en" ∨ lang = "zh") :
    translate_title detect post text target_lang = ⟨Except.ok text, 0⟩ := by
  simp [translate_title, hd, hl]

/-- Witness for the amended C7 at a concrete input: detected language
`"zh"`, remote capability would translate, yet the text comes back
unchanged with zero remote calls. -/
theorem C7_amended_skip_en_zh_witness :
    translate_title (fun _ => Except.ok "zh")
      (fun _ _ => Except.ok (some "changed")) "新闻标题" "en" =
      ⟨Except.ok "新闻标题", 0⟩ :=
  C7_amended_skip_en_zh (fun _ => Except.ok "zh")
    (fun _ _ => Except.ok (some "changed")) "新闻标题" "en" "zh" rfl (Or.inr rfl)

/-- Helper: one `processEntry` step never removes a link from the
in-memory seen set. -/
theorem processEntry_seen_mono (parse : String → ParseResult) (threshold : Int)
    (tr : String → Except Unit String)
    (scrape : Option String → Except Unit String)
    (label : String) (st st1 : ProcState) (e : Entry)
    (h : processEntry parse threshold tr scrape label st e = Except.ok st1) :
    ∀ l, l ∈ st.seen → l ∈ st1.seen := by
  intro l hl
  rw [processEntry] at h
  by_cases hr : is_recent parse threshold e.published
  · rw [if_pos hr] at h
    by_cases hm : e.link ∈ st.seen
    · rw [if_pos hm] at h
      cases h
      exact hl
    · rw [if_neg hm] at h
      cases htr : tr (e.title.getD "No title") with
      | error u => rw [htr] at h; cases h
      | ok te =>
        rw [htr] at h
        cases hsc : scrape e.link with
        | ok text =>
          rw [hsc] at h
          cases h
          exact List.mem_insert_of_mem hl
        | error u =>
          rw [hsc] at h
          cases h
          exact List.mem_insert_of_mem hl
  · rw [if_neg hr] at h
    cases h
    exact hl

/-- Helper: the per-feed entry loop never removes a link from the
in-memory seen set. -/
theorem processEntries_seen_mono (parse : String → ParseResult) (threshold : Int)
    (tr : String → Except Unit String)
    (scrape : Option String → Except Unit String)
    (label : String) (st st2 : ProcState) (es : List Entry)
    (h : processEntries parse threshold tr scrape label st es = Except.ok st2) :
    ∀ l, l ∈ st.seen → l ∈ st2.seen := by
  induction es generalizing st with
  | nil =>
    rw [processEntries] at h
    cases h
    exact fun l hl => hl
  | cons e es ih =>
    rw [processEntries] at h
    cases hpe : processEntry parse threshold tr scrape label st e with
    | error u => rw [hpe] at h; cases h
    | ok stm =>
      rw [hpe] at h
      exact fun l hl => ih stm h l
        (processEntry_seen_mono parse threshold tr scrape label st stm e hpe l hl)

/-- C4: the seen-link set grows monotonically — no step of the entry loop
ever removes a link — and every entry whose link is already in the store
is skipped: `processEntry` returns the state unchanged. -/
theorem C4_seen_monotone_and_skip (parse : String → ParseResult) (threshold : Int)
    (tr : String → Except Unit String)
    (scrape : Option String → Except Unit String)
    (label : String) (st st2 : ProcState) (es : List Entry)
    (h : processEntries parse threshold tr scrape label st es = Except.ok st2) :
    (∀ l, l ∈ st.seen → l ∈ st2.seen) ∧
    (∀ e : Entry, e.link ∈ st.seen →
      processEntry parse threshold tr scrape label st e = Except.ok st) := by
  constructor
  · exact processEntries_seen_mono parse threshold tr scrape label st st2 es h
  · intro e he
    rw [processEntry]
    by_cases hr : is_recent parse threshold e.published
    · rw [if_pos hr, if_pos he]
    · rw [if_neg hr]

set_option maxRecDepth 4000 in
/-- Witness for C4 at a concrete input: a feed containing one fresh entry
keeps the previously seen link "old" in the set, and an entry bearing
"old" is skipped without any state change. -/
theorem C4_seen_monotone_and_skip_witness :
    (some "old" : Option String) ∈
      (⟨[some "a", some "old"], 1, 1,
        [⟨"T", some "p", "L", some "a"⟩], ["body"], []⟩ : ProcState).seen ∧
    processEntry (fun _ => ParseResult.aware 9) 0 (fun s => Except.ok s)
      (fun _ => Except.ok "body") "L"
      ⟨[some "old"], 0, 0, [], [], []⟩ ⟨some "old", some "T", some "p"⟩ =
      Except.ok ⟨[some "old"], 0, 0, [], [], []⟩ := by
  have h : processEntries (fun _ => ParseResult.aware 9) 0 (fun s => Except.ok s)
      (fun _ => Except.ok "body") "L"
      ⟨[some "old"], 0, 0, [], [], []⟩ [⟨some "a", some "T", some "p"⟩] =
      Except.ok ⟨[some "a", some "old"], 1, 1,
        [⟨"T", some "p", "L", some "a"⟩], ["body"], []⟩ := by
    rfl
  have hc := C4_seen_monotone_and_skip (fun _ => ParseResult.aware 9) 0
    (fun s => Except.ok s) (fun _ => Except.ok "body") "L"
    ⟨[some "old"], 0, 0, [], [], []⟩
    ⟨[some "a", some "old"], 1, 1, [⟨"T", some "p", "L", some "a"⟩], ["body"], []⟩
    [⟨some "a", some "T", some "p"⟩] h
  exact ⟨hc.1 (some "old") (by decide),
    hc.2 ⟨some "old", some "T", some "p"⟩ (by decide)⟩

/-- C5: for an accepted entry whose scrape (download/parse) fails, the
failure is caught: the story record has already been emitted, the link
marked seen, both counters incremented; an error identifying the failing
link is logged and no excerpt is emitted — the step still returns
normally (`Except.ok`), never aborting the run. -/
theorem C5_enrichment_failure_still_counted (parse : String → ParseResult)
    (threshold : Int) (tr : String → Except Unit String)
    (scrape : Option String → Except Unit String)
    (label : String) (st : ProcState) (e : Entry) (t : String) (u : Unit)
    (h1 : is_recent parse threshold e.published = true)
    (hs : e.link ∉ st.seen)
    (ht : tr (e.title.getD "No title") = Except.ok t)
    (hsc : scrape e.link = Except.error u) :
    ∃ st1, processEntry parse threshold tr scrape label st e = Except.ok st1 ∧
      st1.stories = st.stories ++
        [{ title := t, published := e.published, source := label, link := e.link }] ∧
      e.link ∈ st1.seen ∧
      st1.count = st.count + 1 ∧
      st1.count_sum = st.count_sum + 1 ∧
      st1.excerpts = st.excerpts ∧
      st1.scrape_errors = st.scrape_errors ++ [e.link] := by
  refine ⟨{ st with
      stories := st.stories ++
                 [{ title := t, published := e.published,
                    source := label, link := e.link }],
      seen := st.seen.insert e.link,
      count := st.count + 1,
      count_sum := st.count_sum + 1,
      scrape_errors := st.scrape_errors ++ [e.link] }, ?_, rfl,
    List.mem_insert_self _ _, rfl, rfl, rfl, rfl⟩
  simp [processEntry, h1, hs, ht, hsc]

set_option maxRecDepth 4000 in
/-- Witness for C5 at a concrete input: a recent, unseen entry whose
scrape capability fails is still emitted, marked seen and counted, with
its link logged as a scrape error and no excerpt. -/
theorem C5_enrichment_failure_still_counted_witness :
    ∃ st1, processEntry (fun _ => ParseResult.aware 7) 2 (fun s => Except.ok s)
        (fun _ => Except.error ()) "SRC"
        ⟨[some "x"], 3, 5, [], [], []⟩ ⟨some "a", some "Titre", some "p"⟩ =
        Except.ok st1 ∧
      st1.stories = [] ++
        [{ title := "Titre", published := some "p", source := "SRC",
           link := some "a" }] ∧
      (some "a" : Option String) ∈ st1.seen ∧
      st1.count = 3 + 1 ∧
      st1.count_sum = 5 + 1 ∧
      st1.excerpts = [] ∧
      st1.scrape_errors = [] ++ [some "a"] :=
  C5_enrichment_failure_still_counted (fun _ => ParseResult.aware 7) 2
    (fun s => Except.ok s) (fun _ => Except.error ()) "SRC"
    ⟨[some "x"], 3, 5, [], [], []⟩ ⟨some "a", some "Titre", some "p"⟩ "Titre" ()
    (by decide) (by decide) rfl rfl

/-- C2: a feed yielding two recent entries bearing the same link, neither
already seen, produces exactly one new story record (for the first
occurrence) and increments the per-feed and run-wide counters by exactly
one: the first occurrence marks the link seen in memory before the second
is evaluated, so the second fails the seen-check. -/
theorem C2_duplicate_in_batch (parse : String → ParseResult) (threshold : Int)
    (tr : String → Except Unit String)
    (scrape : Option String → Except Unit String)
    (label : String) (st : ProcState) (e1 e2 : Entry) (t : String)
    (h1 : is_recent parse threshold e1.published = true)
    (h2 : is_recent parse threshold e2.published = true)
    (hl : e2.link = e1.link)
    (hs : e1.link ∉ st.seen)
    (ht : tr (e1.title.getD "No title") = Except.ok t) :
    ∃ st2, processEntries parse threshold tr scrape label st [e1, e2] =
        Except.ok st2 ∧
      st2.stories = st.stories ++
        [{ title := t, published := e1.published, source := label, link := e1.link }] ∧
      st2.count = st.count + 1 ∧
      st2.count_sum = st.count_sum + 1 := by
  have hmem : e2.link ∈ st.seen.insert e1.link := by
    rw [hl]; exact List.mem_insert_self _ _
  cases hsc : scrape e1.link with
  | ok text =>
    refine ⟨{ st with
        stories := st.stories ++
                   [{ title := t, published := e1.published,
                      source := label, link := e1.link }],
        seen := st.seen.insert e1.link,
        count := st.count + 1,
        count_sum := st.count_sum + 1,
        excerpts := st.excerpts ++ [text.take 150] }, ?_, rfl, rfl, rfl⟩
    simp [processEntries, processEntry, h1, h2, hs, ht, hsc, hmem, hl]
  | error u =>
    refine ⟨{ st with
        stories := st.stories ++
                   [{ title := t, published := e1.published,
                      source := label, link := e1.link }],
        seen := st.seen.insert e1.link,
        count := st.count + 1,
        count_sum := st.count_sum + 1,
        scrape_errors := st.scrape_errors ++ [e1.link] }, ?_, rfl, rfl, rfl⟩
    simp [processEntries, processEntry, h1, h2, hs, ht, hsc, hmem, hl]

set_option maxRecDepth 4000 in
/-- Witness for C2 at a concrete input: two recent entries with the same
link "a", starting from an empty state, yield exactly one story and both
counters equal to one. -/
theorem C2_duplicate_in_batch_witness :
    ∃ st2, processEntries (fun _ => ParseResult.aware 9) 0 (fun s => Except.ok s)
        (fun _ => Except.ok "body") "L"
        ⟨[], 0, 0, [], [], []⟩
        [⟨some "a", some "T1", some "p"⟩, ⟨some "a", some "T2", some "p"⟩] =
        Except.ok st2 ∧
      st2.stories = [] ++
        [{ title := "T1", published := some "p", source := "L", link := some "a" }] ∧
      st2.count = 0 + 1 ∧
      st2.count_sum = 0 + 1 :=
  C2_duplicate_in_batch (fun _ => ParseResult.aware 9) 0 (fun s => Except.ok s)
    (fun _ => Except.ok "body") "L" ⟨[], 0, 0, [], [], []⟩
    ⟨some "a", some "T1", some "p"⟩ ⟨some "a", some "T2", some "p"⟩ "T1"
    (by decide) (by decide) rfl (by decide) rfl

/-- C6: persist-then-reload round trip.  Serializing the in-memory seen
set in any iteration order (`list(seen_links)`) and writing it with
`save_seen`, then reconstructing the store as at startup
(`set(json.load(f))`), yields a set with exactly the same members; and the
write is a complete snapshot that replaces any prior file content. -/
theorem C6_persist_reload_round_trip (seen ser : List (Option String))
    (prior : Option (List (Option String)))
    (h : ∀ x, x ∈ ser ↔ x ∈ seen) :
    (∀ x, x ∈ load_seen (write_seen prior ser) ↔ x ∈ seen) ∧
    write_seen prior ser = some ser := by
  refine ⟨?_, rfl⟩
  intro x
  show x ∈ ser.dedup ↔ x ∈ seen
  rw [List.mem_dedup]
  exact h x

/-- Witness for C6 at a concrete input: the set `{None, "a"}` serialized
in a different order and with a duplicate survives the round trip through
a file that previously held other content. -/
theorem C6_persist_reload_round_trip_witness :
    ((some "a" : Option String) ∈
        load_seen (write_seen (some [some "zzz"]) [none, some "a", some "a"]) ↔
      (some "a" : Option String) ∈ [some "a", none]) ∧
    ((none : Option String) ∈
        load_seen (write_seen (some [some "zzz"]) [none, some "a", some "a"]) ↔
      (none : Option String) ∈ [some "a", none]) ∧
    write_seen (some [some "zzz"]) [none, some "a", some "a"] =
      some [none, some "a", some "a"] := by
  have hc := C6_persist_reload_round_trip [some "a", none] [none, some "a", some "a"]
    (some [some "zzz"]) (by intro x; simp; tauto)
  exact ⟨hc.1 (some "a"), hc.1 none, hc.2⟩

/-- Helper: each accepted entry contributes its own link to both the
emitted story and the seen set, so the quantity
`linklessCount stories + (1 if None unseen else 0)` is invariant under one
`processEntry` step: a link-less story can only be emitted by consuming
the "None not yet seen" allowance. -/
theorem processEntry_linkless_measure (parse : String → ParseResult)
    (threshold : Int) (tr : String → Except Unit String)
    (scrape : Option String → Except Unit String)
    (label : String) (st st1 : ProcState) (e : Entry)
    (h : processEntry parse threshold tr scrape label st e = Except.ok st1) :
    linklessCount st1.stories +
        (if (none : Option String) ∈ st1.seen then 0 else 1) =
      linklessCount st.stories +
        (if (none : Option String) ∈ st.seen then 0 else 1) := by
  rw [processEntry] at h
  by_cases hr : is_recent parse threshold e.published
  · rw [if_pos hr] at h
    by_cases hm : e.link ∈ st.seen
    · rw [if_pos hm] at h; cases h; rfl
    · rw [if_neg hm] at h
      cases htr : tr (e.title.getD "No title") with
      | error u => rw [htr] at h; cases h
      | ok te =>
        rw [htr] at h
        have key : st1.stories = st.stories ++
              [{ title := te, published := e.published,
                 source := label, link := e.link }] ∧
            st1.seen = st.seen.insert e.link := by
          cases hsc : scrape e.link with
          | ok text => rw [hsc] at h; cases h; exact ⟨rfl, rfl⟩
          | error u => rw [hsc] at h; cases h; exact ⟨rfl, rfl⟩
        obtain ⟨hst, hsn⟩ := key
        rw [hst, hsn]
        cases hel : e.link with
        | none =>
          rw [hel] at hm
          simp [linklessCount, List.filter_append, List.mem_insert_iff, hm]
        | some l =>
          have hl2 : (none : Option String) ∈ st.seen.insert (some l) ↔
              (none : Option String) ∈ st.seen := by
            simp [List.mem_insert_iff]
          simp [linklessCount, List.filter_append, hl2]
  · rw [if_neg hr] at h; cases h; rfl

/-- Helper: the linkless-story measure is invariant across a whole entry
loop. -/
theorem processEntries_linkless_measure (parse : String → ParseResult)
    (threshold : Int) (tr : String → Except Unit String)
    (scrape : Option String → Except Unit String)
    (label : String) (st st2 : ProcState) (es : List Entry)
    (h : processEntries parse threshold tr scrape label st es = Except.ok st2) :
    linklessCount st2.stories +
        (if (none : Option String) ∈ st2.seen then 0 else 1) =
      linklessCount st.stories +
        (if (none : Option String) ∈ st.seen then 0 else 1) := by
  induction es generalizing st with
  | nil => rw [processEntries] at h; cases h; rfl
  | cons e es ih =>
    rw [processEntries] at h
    cases hpe : processEntry parse threshold tr scrape label st e with
    | error u => rw [hpe] at h; cases h
    | ok stm =>
      rw [hpe] at h
      rw [ih stm h,
        processEntry_linkless_measure parse threshold tr scrape label st stm e hpe]

/-- C10: a recent entry without a link attribute is still accepted: its
link is the `None` placeholder, a story is emitted and counted, `None` is
added to the seen set and appears in the persisted snapshot; and starting
from a state that has not seen `None` and has emitted no link-less story,
any entry loop emits at most one link-less story — every later link-less
entry fails the seen-check. -/
theorem C10_linkless_entry (parse : String → ParseResult) (threshold : Int)
    (tr : String → Except Unit String)
    (scrape : Option String → Except Unit String)
    (label : String) (st st2 : ProcState) (e : Entry) (t : String)
    (prior : Option (List (Option String))) (es : List Entry)
    (ha : e.link = none)
    (hr : is_recent parse threshold e.published = true)
    (hn : (none : Option String) ∉ st.seen)
    (ht : tr (e.title.getD "No title") = Except.ok t)
    (hp : processEntries parse threshold tr scrape label st es = Except.ok st2)
    (hz : linklessCount st.stories = 0) :
    (∃ st1, processEntry parse threshold tr scrape label st e = Except.ok st1 ∧
      st1.stories = st.stories ++
        [{ title := t, published := e.published, source := label, link := none }] ∧
      (none : Option String) ∈ st1.seen ∧
      st1.count = st.count + 1 ∧
      st1.count_sum = st.count_sum + 1 ∧
      (none : Option String) ∈ load_seen (write_seen prior st1.seen)) ∧
    linklessCount st2.stories ≤ 1 := by
  constructor
  · cases hsc : scrape (none : Option String) with
    | ok text =>
      refine ⟨{ st with
          stories := st.stories ++
                     [{ title := t, published := e.published,
                        source := label, link := none }],
          seen := st.seen.insert none,
          count := st.count + 1,
          count_sum := st.count_sum + 1,
          excerpts := st.excerpts ++ [text.take 150] }, ?_, rfl,
        List.mem_insert_self _ _, rfl, rfl, ?_⟩
      · simp [processEntry, hr, hn, ht, hsc, ha]
      · show (none : Option String) ∈ (st.seen.insert none).dedup
        rw [List.mem_dedup]
        exact List.mem_insert_self _ _
    | error u =>
      refine ⟨{ st with
          stories := st.stories ++
                     [{ title := t, published := e.published,
                        source := label, link := none }],
          seen := st.seen.insert none,
          count := st.count + 1,
          count_sum := st.count_sum + 1,
          scrape_errors := st.scrape_errors ++ [none] }, ?_, rfl,
        List.mem_insert_self _ _, rfl, rfl, ?_⟩
      · simp [processEntry, hr, hn, ht, hsc, ha]
      · show (none : Option String) ∈ (st.seen.insert none).dedup
        rw [List.mem_dedup]
        exact List.mem_insert_self _ _
  · have hinv := processEntries_linkless_measure parse threshold tr scrape label
      st st2 es hp
    rw [hz, if_neg hn] at hinv
    by_cases h2 : (none : Option String) ∈ st2.seen
    · rw [if_pos h2] at hinv; omega
    · rw [if_neg h2] at hinv; omega

set_option maxRecDepth 4000 in
/-- Witness for C10 at a concrete input: from an empty state, a feed of
two recent link-less entries accepts the first (emitting and counting it,
marking `None` seen and persisting it) and skips the second: one link-less
story in total. -/
theorem C10_linkless_entry_witness :
    (∃ st1, processEntry (fun _ => ParseResult.aware 9) 0 (fun s => Except.ok s)
        (fun _ => Except.error ()) "L" ⟨[], 0, 0, [], [], []⟩
        ⟨none, some "T", some "p"⟩ = Except.ok st1 ∧
      st1.stories = [] ++
        [{ title := "T", published := some "p", source := "L",
           link := (none : Option String) }] ∧
      (none : Option String) ∈ st1.seen ∧
      st1.count = 0 + 1 ∧
      st1.count_sum = 0 + 1 ∧
      (none : Option String) ∈ load_seen (write_seen none st1.seen)) ∧
    linklessCount (ProcState.stories
      ⟨[none], 1, 1,
        [{ title := "T", published := some "p", source := "L", link := none }],
        [], [none]⟩) ≤ 1 :=
  C10_linkless_entry (fun _ => ParseResult.aware 9) 0 (fun s => Except.ok s)
    (fun _ => Except.error ()) "L" ⟨[], 0, 0, [], [], []⟩
    ⟨[none], 1, 1,
      [{ title := "T", published := some "p", source := "L", link := none }],
      [], [none]⟩
    ⟨none, some "T", some "p"⟩ "T" none
    [⟨none, some "T", some "p"⟩, ⟨none, some "T2", some "p"⟩]
    rfl (by decide) (by decide) rfl (by rfl) rfl
